import Mathlib

set_option autoImplicit false

/-!
Verification of the Memberful OAuth2 server-side-app example
(Node.js + Express + Passport).

The repository is glue around the `passport-oauth2` strategy: the
authorization-code exchange and the refresh POST themselves are performed by
the library, while the repository's own code configures the strategy
(src/src/index.js lines 96-113), stores the refresh token in a process-wide
variable (line 49, line 230), queries the member's data with the access token
(lines 239-267), reacts to refresh results (lines 309-329) and
serializes/deserializes the Passport user (lines 129-146).

Definitions below are shallow embeddings of those source fragments; the parts
of the protocol that live inside the library (state validation, token-endpoint
requests, provider-side token expiry) are modelled from the spec and marked as
such in their doc comments.
-/

namespace MemberfulOAuth

/-- A successful token-endpoint response body
`\x7baccess_token, refresh_token, expires_in\x7d` (spec section 6). -/
structure TokenResponse where
  access_token : String
  refresh_token : String
  expires_in : Nat
  deriving Repr, DecidableEq

/-- The spec's TokenPair: `\x7baccessToken, refreshToken, expiresAt\x7d`. -/
structure TokenPair where
  accessToken : String
  refreshToken : String
  expiresAt : Nat
  deriving Repr, DecidableEq

/-- Modelled from the spec: the token-endpoint exchange is performed by the
`passport-oauth2` library, not by code under src/. The spec states that a
successful response `\x7baccess_token, refresh_token, expires_in\x7d` is parsed into a
TokenPair with `expiresAt = now + expires_in`. -/
def parseTokenResponse (now : Nat) (resp : TokenResponse) : TokenPair :=
  { accessToken := resp.access_token
  , refreshToken := resp.refresh_token
  , expiresAt := now + resp.expires_in }

/-- Per-session OAuth flow state: the `state` nonce issued at redirect time and
not yet consumed, if any. -/
structure SessionFlow where
  pendingState : Option String
  deriving Repr, DecidableEq

/-- Query parameters of the provider's callback request. -/
structure CallbackQuery where
  state : String
  code : String
  deriving Repr, DecidableEq

/-- A server-to-server request to the token endpoint. -/
structure TokenEndpointRequest where
  grant_type : String
  code : String
  deriving Repr, DecidableEq

/-- Error taxonomy of the authorization-code exchange (spec section 7). -/
inductive AuthError where
  | stateMismatch
  | tokenExchangeError
  deriving Repr, DecidableEq

/-- Modelled from the spec: `beginAuthorization` is performed by
`passport.authenticate` inside the library. The `state` nonce is generated
fresh per authorization request (the `nonce` argument stands for the fresh
random value) and recorded as the session's pending state; it is also placed
in the redirect's query string, which is what the second component returns. -/
def beginAuthorization (nonce : String) : SessionFlow × String :=
  ({ pendingState := some nonce }, nonce)

/-- Modelled from the spec: callback handling is performed by the
`passport-oauth2` library. The callback validates that the query's `state`
equals the pending state issued at redirect time; on mismatch it fails with
`StateMismatch` and performs no token-endpoint request; on match it POSTs the
code to the token endpoint and parses the response into a TokenPair. The
pending state is consumed (discarded) either way. The third component records
every token-endpoint request made. -/
def handleCallback (sess : SessionFlow) (now : Nat) (q : CallbackQuery)
    (resp : TokenResponse) :
    SessionFlow × Except AuthError TokenPair × List TokenEndpointRequest :=
  match sess.pendingState with
  | none => ({ pendingState := none }, .error .stateMismatch, [])
  | some issued =>
    if q.state = issued then
      ({ pendingState := none }, .ok (parseTokenResponse now resp),
        [{ grant_type := "authorization_code", code := q.code }])
    else
      ({ pendingState := none }, .error .stateMismatch, [])

/-- The process-wide mutable state of the example: the single variable
`stored_refresh_token` declared at src/src/index.js line 49, shared by every
request the process serves. -/
structure GlobalState where
  stored_refresh_token : Option String
  deriving Repr, DecidableEq

/-- `let stored_refresh_token = null` (src/src/index.js line 49). -/
def initialGlobalState : GlobalState := { stored_refresh_token := none }

/-- Effect of `stored_refresh_token = refresh_token` executed by
`handleSuccessfulOAuthFlow` (src/src/index.js line 230): the assignment
overwrites the single process-wide variable, whatever session the flow
belongs to. -/
def storeRefreshToken (_g : GlobalState) (refresh_token : String) : GlobalState :=
  { stored_refresh_token := some refresh_token }

/-- The refresh token the code passes to `refresh.requestNewAccessToken`
(src/src/index.js line 311): always the current value of the process-wide
variable. -/
def refreshTokenUsed (g : GlobalState) : Option String :=
  g.stored_refresh_token

/-- The spec's session authentication status (spec section 4.3 state machine). -/
inductive AuthStatus where
  | unauthenticated
  | pendingCallback
  | authenticated
  | needsRefresh
  deriving Repr, DecidableEq

/-- What the refresh-result callback leaves behind: the process-wide state,
the session's authentication status, the console lines it printed, and whether
it threw. -/
structure RefreshOutcome where
  globals : GlobalState
  authStatus : AuthStatus
  logs : List String
  crashed : Bool
  deriving Repr, DecidableEq

/-- The callback passed to `refresh.requestNewAccessToken`
(src/src/index.js lines 312-327). On error (`err !== null`) it logs the error;
on success it logs the new tokens. In both branches it returns normally,
writes nothing to `stored_refresh_token`, and leaves the session's
authentication status untouched. -/
def refreshCallbackResult (g : GlobalState) (status : AuthStatus)
    (err : Option String) (accessToken refreshToken : String) : RefreshOutcome :=
  match err with
  | some e =>
    { globals := g, authStatus := status
    , logs := ["Error refreshing token: " ++ e], crashed := false }
  | none =>
    { globals := g, authStatus := status
    , logs := ["We have refreshed the token! New access token: " ++ accessToken
                 ++ " Refresh token stays the same: " ++ refreshToken]
    , crashed := false }

/-- Result of the member-data GET request made inside
`handleSuccessfulOAuthFlow` (src/src/index.js lines 260-267): either the
response body, or a rejection thrown by `axios.get`. -/
inductive MemberDataFetch where
  | ok (data : String)
  | httpError (body : String)
  deriving Repr, DecidableEq

/-- How an invocation of the `handleSuccessfulOAuthFlow` verify function ends,
as seen by the HTTP request that triggered it. -/
inductive VerifyOutcome where
  /-- `callback(null, data)` was invoked (line 333): Passport completes
  authentication and the route renders the member's data. -/
  | verified (data : String)
  /-- The catch block (lines 334-337) ran `res.send(error.data)`, but `res` is
  not in scope in `handleSuccessfulOAuthFlow` (its parameters are
  `access_token, refresh_token, profile, callback`): a ReferenceError escapes
  the async function as an unhandled rejection, `callback` is never invoked,
  and no HTTP response is ever sent for the request. -/
  | uncaughtReferenceError
  deriving Repr, DecidableEq

/-- Shallow embedding of `handleSuccessfulOAuthFlow`
(src/src/index.js lines 215-338) restricted to its store/fetch/answer
behaviour: it stores the refresh token into the process-wide variable
(line 230), then either returns the member data through `callback`
(line 333) or, when the member-data request failed, falls into the catch
block whose `res.send` throws a ReferenceError (line 336). -/
def handleSuccessfulOAuthFlowOutcome (g : GlobalState) (refresh_token : String)
    (fetch : MemberDataFetch) : GlobalState × VerifyOutcome :=
  let g' := storeRefreshToken g refresh_token
  match fetch with
  | .ok d => (g', .verified d)
  | .httpError _ => (g', .uncaughtReferenceError)

/-- Whether the end user receives any HTTP response at all (a redirect or a
rendered page) for the request that ran the verify function. -/
def respondsToUser : VerifyOutcome → Bool
  | .verified _ => true
  | .uncaughtReferenceError => false

/-- Error taxonomy of the authenticated resource fetch (spec section 4.2). -/
inductive FetchError where
  | unauthorized
  | upstreamError
  deriving Repr, DecidableEq

/-- Modelled from the spec: provider-side token expiry is not implemented in
this repository. The spec's invariant is that a TokenPair's accessToken is
accepted by the resource endpoint only for requests issued before `expiresAt`;
strictly after it, the fetch fails with `Unauthorized`. On success the request
carries the header `Bearer <accessToken>`, which the `.ok` value records. -/
def fetchProfileAt (t : Nat) (pair : TokenPair) : Except FetchError String :=
  if pair.expiresAt < t then .error .unauthorized
  else .ok ("Bearer " ++ pair.accessToken)

/-- The Memberful base URL placeholder configured at src/src/index.js
line 37. -/
def memberfulURL : String := "INSERT_YOUR_MEMBERFUL_URL_HERE"

/-- The GraphQL query template literal built by `handleSuccessfulOAuthFlow`
(src/src/index.js lines 239-255), character for character, including its
newlines and indentation. -/
def memberQuery : String :=
  "\n      \x7b\n        currentMember \x7b\n          id\n          email\n          fullName\n          subscriptions \x7b\n            active\n            expiresAt\n            plan \x7b\n              id\n              name\n            \x7d\n          \x7d\n        \x7d\n      \x7d\n      "

/-- An outbound HTTP GET request: the URL and the Authorization header. -/
structure HttpGetRequest where
  url : String
  authorizationHeader : String
  deriving Repr, DecidableEq

/-- The member-data request issued by `handleSuccessfulOAuthFlow`
(src/src/index.js lines 260-267): a GET to
`memberfulURL + "/api/graphql/member?query=" + memberQuery` with header
`Authorization: Bearer <access_token>`. -/
def buildMemberDataRequest (access_token : String) : HttpGetRequest :=
  { url := memberfulURL ++ "/api/graphql/member?query=" ++ memberQuery
  , authorizationHeader := "Bearer " ++ access_token }

/-- Splits a character list into maximal whitespace-free words (accumulator
holds the current word reversed). -/
def tokenizeAux : List Char → List Char → List String
  | [], acc => if acc.isEmpty then [] else [String.mk acc.reverse]
  | c :: cs, acc =>
    if c.isWhitespace then
      if acc.isEmpty then tokenizeAux cs []
      else String.mk acc.reverse :: tokenizeAux cs []
    else tokenizeAux cs (c :: acc)

/-- The whitespace-separated tokens of a GraphQL query string; in
`memberQuery` every brace stands alone, so tokens are field names and
braces. -/
def queryTokens (s : String) : List String :=
  tokenizeAux s.data []

/-- A GraphQL selection: a plain field or a field with a sub-selection. -/
inductive Selection where
  | field : String → Selection
  | nested : String → List Selection → Selection
  deriving Repr

/-- Fuel-indexed recursive-descent reading of a token list as a selection
list; stops at a closing brace and returns the unconsumed tokens. -/
def parseSelections : Nat → List String → List Selection × List String
  | 0, ts => ([], ts)
  | _ + 1, [] => ([], [])
  | fuel + 1, t :: ts =>
    if t = "\x7d" then ([], ts)
    else
      match ts with
      | "\x7b" :: rest =>
        let inner := parseSelections fuel rest
        let tail := parseSelections fuel inner.2
        (Selection.nested t inner.1 :: tail.1, tail.2)
      | _ =>
        let tail := parseSelections fuel ts
        (Selection.field t :: tail.1, tail.2)

/-- The selection list denoted by a GraphQL query document (an outer
anonymous `\x7b ... \x7d` block around a selection list). -/
def parseQuery (s : String) : List Selection :=
  match queryTokens s with
  | "\x7b" :: rest => (parseSelections rest.length rest).1
  | ts => (parseSelections ts.length ts).1

/-- The fixed field set the spec says the member-data query requests:
id, email, fullName, subscriptions[active, expiresAt, plan[id, name]] under
`currentMember`. Stated from the spec's words, to be compared with the query
parsed from the source's `memberQuery` literal. -/
def requestedMemberFields : List Selection :=
  [Selection.nested "currentMember"
    [Selection.field "id", Selection.field "email", Selection.field "fullName",
     Selection.nested "subscriptions"
       [Selection.field "active", Selection.field "expiresAt",
        Selection.nested "plan" [Selection.field "id", Selection.field "name"]]]]

/-- The name a selection selects. -/
def selectionName : Selection → String
  | .field n => n
  | .nested n _ => n

/-- The sub-selection list under the nested selection named `n`, if any. -/
def selectionsUnder (sels : List Selection) (n : String) : List Selection :=
  match sels with
  | [] => []
  | .field _ :: rest => selectionsUnder rest n
  | .nested k sub :: rest => if k = n then sub else selectionsUnder rest n

/-- A JSON value, as returned by the member-data endpoint. -/
inductive JsonVal where
  | str : String → JsonVal
  | boolean : Bool → JsonVal
  | jnull : JsonVal
  | arr : List JsonVal → JsonVal
  | obj : List (String × JsonVal) → JsonVal
  deriving Repr

/-- The spec's Plan record: `\x7bid, name\x7d`. -/
structure Plan where
  id : String
  name : String
  deriving Repr, DecidableEq

/-- The spec's subscription record:
`\x7bactive, expiresAt (nullable), plan\x7d`. -/
structure Subscription where
  active : Bool
  expiresAt : Option String
  plan : Plan
  deriving Repr, DecidableEq

/-- The spec's MemberProfile:
`\x7bid, email, fullName, subscriptions\x7d`. -/
structure MemberProfile where
  id : String
  email : String
  fullName : String
  subscriptions : List Subscription
  deriving Repr, DecidableEq

/-- Modelled from the spec: the JSON the provider returns for a plan —
exactly the requested plan fields. -/
def planToJson (p : Plan) : JsonVal :=
  .obj [("id", .str p.id), ("name", .str p.name)]

/-- Modelled from the spec: the JSON the provider returns for one
subscription — exactly the requested subscription fields, with a null
`expiresAt` when absent. -/
def subscriptionToJson (s : Subscription) : JsonVal :=
  .obj [("active", .boolean s.active),
        ("expiresAt", match s.expiresAt with | none => .jnull | some ts => .str ts),
        ("plan", planToJson s.plan)]

/-- Modelled from the spec: the JSON object under `currentMember` — exactly
the requested member fields. -/
def memberProfileToJson (m : MemberProfile) : JsonVal :=
  .obj [("id", .str m.id), ("email", .str m.email), ("fullName", .str m.fullName),
        ("subscriptions", .arr (m.subscriptions.map subscriptionToJson))]

/-- Modelled from the spec: the member-data response body
`\x7b "currentMember": \x7b ... \x7d \x7d` (spec section 6; example at
src/src/index.js lines 273-290). -/
def memberDataResponseBody (m : MemberProfile) : JsonVal :=
  .obj [("currentMember", memberProfileToJson m)]

/-- The top-level keys of a JSON object (empty for non-objects). -/
def memberKeys : JsonVal → List String
  | .obj kvs => kvs.map Prod.fst
  | _ => []

/-- Property access `v[k]` on a JSON value: the value under key `k` of an
object, and `none` (undefined) otherwise. -/
def getField : JsonVal → String → Option JsonVal
  | .obj kvs, k => kvs.lookup k
  | _, _ => none

/-- Whether a subscription object carries exactly the requested keys
`active, expiresAt, plan`, with the plan carrying exactly `id, name`. -/
def subscriptionShapeOk (v : JsonVal) : Bool :=
  memberKeys v == ["active", "expiresAt", "plan"] &&
  (match getField v "plan" with
   | some p => memberKeys p == ["id", "name"]
   | none => false)

/-- The subset `myUser = \x7bid: user.id, email: user.email,
fullName: user.fullName\x7d` computed — and then discarded — by
`serializeUser` (src/src/index.js lines 135-139). -/
def myUserOf (user : JsonVal) : List (String × Option JsonVal) :=
  [("id", getField user "id"), ("email", getField user "email"),
   ("fullName", getField user "fullName")]

/-- `passport.serializeUser` (src/src/index.js lines 129-142): after
computing (and dropping) `myUser`, it invokes `callback(null, user)` — the
pair is (error, value stored in the session). -/
def serializeUser (user : JsonVal) : Option String × JsonVal :=
  (none, user)

/-- `passport.deserializeUser` (src/src/index.js lines 144-146): invokes
`callback(null, user)` on the stored value. -/
def deserializeUser (user : JsonVal) : Option String × JsonVal :=
  (none, user)

/-- The value stored in the session for a user produced by the exchange. -/
def sessionStoredUser (user : JsonVal) : JsonVal :=
  (serializeUser user).2

/-- `req.user` on the protected route: the deserialization of the stored
value. -/
def reqUser (storedUser : JsonVal) : JsonVal :=
  (deserializeUser storedUser).2

/-- The example member-data response from the source comments
(src/src/index.js lines 273-290): the raw object passed to Passport as the
authenticated user. -/
def exampleMemberData : JsonVal :=
  .obj [("currentMember", .obj
    [("id", .str "2406643"), ("email", .str "zamentik@gmail.com"),
     ("fullName", .str "Zam"),
     ("subscriptions", .arr
       [.obj [("plan", .obj [("id", .str "65673"), ("name", .str "One time success")]),
              ("active", .boolean true), ("expiresAt", .jnull)]])])]

end MemberfulOAuth

namespace MemberfulOAuth

/-- Claim C1: a callback whose `state` differs from the state issued at
redirect time yields `StateMismatch` and performs no token-endpoint request;
the state is generated fresh per authorization request (recorded pending at
redirect time) and consumed at callback time. -/
theorem handleCallback_state_mismatch (nonce : String) (now : Nat)
    (q : CallbackQuery) (resp : TokenResponse) (hmismatch : q.state ≠ nonce) :
    (beginAuthorization nonce).1.pendingState = some nonce ∧
    handleCallback (beginAuthorization nonce).1 now q resp =
      ({ pendingState := none }, .error .stateMismatch, []) := by
  refine ⟨rfl, ?_⟩
  simp [handleCallback, beginAuthorization, hmismatch]

theorem handleCallback_state_mismatch_witness :
    (beginAuthorization "state1").1.pendingState = some "state1" ∧
    handleCallback (beginAuthorization "state1").1 1000
      { state := "forged", code := "abc123" }
      { access_token := "AT1", refresh_token := "RT1", expires_in := 900 } =
      ({ pendingState := none }, .error .stateMismatch, []) :=
  handleCallback_state_mismatch "state1" 1000
    { state := "forged", code := "abc123" }
    { access_token := "AT1", refresh_token := "RT1", expires_in := 900 }
    (by decide)

/-- Claim C2: a successful exchange yields a TokenPair whose accessToken and
refreshToken are the response's values and whose expiresAt is the issuance
time plus `expires_in`; the token-endpoint request carries the code. -/
theorem handleCallback_success_tokenPair (nonce : String) (now : Nat)
    (q : CallbackQuery) (resp : TokenResponse) (hstate : q.state = nonce) :
    handleCallback (beginAuthorization nonce).1 now q resp =
      ({ pendingState := none },
        .ok { accessToken := resp.access_token
            , refreshToken := resp.refresh_token
            , expiresAt := now + resp.expires_in },
        [{ grant_type := "authorization_code", code := q.code }]) := by
  simp [handleCallback, beginAuthorization, hstate, parseTokenResponse]

theorem handleCallback_success_tokenPair_witness :
    handleCallback (beginAuthorization "state1").1 1000
      { state := "state1", code := "abc123" }
      { access_token := "AT1", refresh_token := "RT1", expires_in := 900 } =
      ({ pendingState := none },
        .ok { accessToken := "AT1", refreshToken := "RT1", expiresAt := 1900 },
        [{ grant_type := "authorization_code", code := "abc123" }]) :=
  handleCallback_success_tokenPair "state1" 1000
    { state := "state1", code := "abc123" }
    { access_token := "AT1", refresh_token := "RT1", expires_in := 900 }
    rfl

/-- Claim C3 counterexample: with `stored_refresh_token = "RT1"`, a successful
refresh whose response carries the rotated refresh token "RT2" leaves the
stored token at "RT1" — the program does not persist the response's refresh
token, contradicting the claim that the persisted token always equals the
response's. -/
theorem refresh_rotated_token_not_persisted :
    (refreshCallbackResult { stored_refresh_token := some "RT1" }
        .authenticated none "AT2" "RT2").globals.stored_refresh_token
      ≠ some "RT2" := by
  decide

/-- Claim C3 (amended): after any refresh, successful or not, the program
leaves `stored_refresh_token` exactly as it was — the refresh-result callback
never persists the refresh token carried in the provider's response, assuming
instead that refresh tokens are stable. -/
theorem refreshCallback_never_updates_stored_token (g : GlobalState)
    (status : AuthStatus) (err : Option String) (accessTok refreshTok : String) :
    (refreshCallbackResult g status err accessTok refreshTok).globals = g := by
  cases err <;> rfl

/-- Claim C5 counterexample: a refresh failure for a session in `needsRefresh`
leaves the session's authentication status at `needsRefresh` — the code does
not reset it to `unauthenticated`, contradicting the claimed state-machine
edge NeedsRefresh to Unauthenticated. -/
theorem refresh_failure_does_not_reset_session :
    (refreshCallbackResult { stored_refresh_token := some "RT1" }
        .needsRefresh (some "invalid_grant") "" "").authStatus
      ≠ .unauthenticated := by
  decide

/-- Claim C5 (amended): a refresh call whose token the provider has
invalidated yields the error to the result callback, which logs it and
returns normally (never crashes); the session's authentication state is left
unchanged — the code does not reset it, so no transition to Unauthenticated
happens. -/
theorem refreshCallback_error_logs_no_crash_no_reset (g : GlobalState)
    (status : AuthStatus) (e : String) (accessTok refreshTok : String) :
    (refreshCallbackResult g status (some e) accessTok refreshTok).crashed = false ∧
    (refreshCallbackResult g status (some e) accessTok refreshTok).logs =
      ["Error refreshing token: " ++ e] ∧
    (refreshCallbackResult g status (some e) accessTok refreshTok).authStatus =
      status := by
  exact ⟨rfl, rfl, rfl⟩

/-- Claim C6 counterexample: session A's exchange stores "RT_A"; session B's
exchange then overwrites the single process-wide variable, so the refresh that
session A later issues uses "RT_B", session B's refresh token — shared mutable
state across sessions beyond the session store, and one session's token
material read and overwritten by another session's flow. -/
theorem second_session_overwrites_first_sessions_token :
    refreshTokenUsed
        (storeRefreshToken (storeRefreshToken initialGlobalState "RT_A") "RT_B")
      ≠ some "RT_A" := by
  decide

/-- Claim C6 (amended): the program keeps one process-wide mutable variable
`stored_refresh_token` shared by all sessions; every successful exchange
overwrites it, so any later refresh — whichever session issues it — uses the
refresh token stored by the most recent exchange of any session. -/
theorem stored_token_is_last_exchange (g : GlobalState) (rtA rtB : String) :
    refreshTokenUsed (storeRefreshToken (storeRefreshToken g rtA) rtB) =
      some rtB := rfl

/-- Claim C4: at the failing input — a member-data fetch that fails — the
verify function falls into its catch block, whose `res.send` references the
out-of-scope `res`; the thrown ReferenceError escapes, `callback` is never
invoked and no response (neither redirect nor rendered error) reaches the
user: the request hangs, contradicting the claim. -/
theorem fetch_error_hangs_request (errBody : String) :
    (handleSuccessfulOAuthFlowOutcome initialGlobalState "RT1"
        (.httpError errBody)).2 = .uncaughtReferenceError ∧
    respondsToUser
        (handleSuccessfulOAuthFlowOutcome initialGlobalState "RT1"
          (.httpError errBody)).2 = false := by
  exact ⟨rfl, rfl⟩

/-- Claim C7: a TokenPair's accessToken is sent (as `Bearer <accessToken>`)
only for requests issued at or before `expiresAt`; a request issued strictly
after `expiresAt` fails with `Unauthorized`; once a refresh succeeds and
yields a pair whose `expiresAt` covers the request time, the fetch succeeds
again with the new token. -/
theorem fetchProfileAt_expiry (t : Nat) (pair : TokenPair) :
    (t ≤ pair.expiresAt →
      fetchProfileAt t pair = .ok ("Bearer " ++ pair.accessToken)) ∧
    (pair.expiresAt < t → fetchProfileAt t pair = .error .unauthorized) ∧
    (∀ now resp, t ≤ now + (resp : TokenResponse).expires_in →
      fetchProfileAt t (parseTokenResponse now resp) =
        .ok ("Bearer " ++ resp.access_token)) := by
  refine ⟨fun h => ?_, fun h => ?_, fun now resp h => ?_⟩
  · simp [fetchProfileAt, Nat.not_lt.mpr h]
  · simp [fetchProfileAt, h]
  · simp [fetchProfileAt, parseTokenResponse, Nat.not_lt.mpr h]

theorem fetchProfileAt_expiry_witness :
    fetchProfileAt 500 { accessToken := "AT1", refreshToken := "RT1", expiresAt := 1000 } =
      .ok ("Bearer " ++ "AT1") ∧
    fetchProfileAt 2000 { accessToken := "AT1", refreshToken := "RT1", expiresAt := 1000 } =
      .error .unauthorized ∧
    fetchProfileAt 2000
        (parseTokenResponse 1500
          { access_token := "AT2", refresh_token := "RT1", expires_in := 900 }) =
      .ok ("Bearer " ++ "AT2") :=
  ⟨(fetchProfileAt_expiry 500
      { accessToken := "AT1", refreshToken := "RT1", expiresAt := 1000 }).1
      (by decide),
   (fetchProfileAt_expiry 2000
      { accessToken := "AT1", refreshToken := "RT1", expiresAt := 1000 }).2.1
      (by decide),
   (fetchProfileAt_expiry 2000
      { accessToken := "AT1", refreshToken := "RT1", expiresAt := 1000 }).2.2 1500
      { access_token := "AT2", refresh_token := "RT1", expires_in := 900 }
      (by decide)⟩

/-- The query string the source code sends parses to exactly the field set
the spec names. Shared helper for the request- and response-shape claims. -/
theorem parse_memberQuery_fields :
    parseQuery memberQuery = requestedMemberFields := by
  rfl

/-- Claim C8: for every token pair, the member-data request is a GET to the
resource endpoint carrying `Authorization: Bearer <accessToken>`, and its
query parameter is the source's query literal, which encodes exactly the
fixed field set id, email, fullName,
subscriptions[active, expiresAt, plan[id, name]] under currentMember. -/
theorem memberDataRequest_bearer_and_fields (pair : TokenPair) :
    (buildMemberDataRequest pair.accessToken).authorizationHeader =
      "Bearer " ++ pair.accessToken ∧
    (buildMemberDataRequest pair.accessToken).url =
      memberfulURL ++ "/api/graphql/member?query=" ++ memberQuery ∧
    parseQuery memberQuery = requestedMemberFields :=
  ⟨rfl, rfl, parse_memberQuery_fields⟩

/-- Claim C9: for every member profile, the fields present in the response
are exactly the fields the source's query requests — the sole top-level key
is `currentMember`; under it exactly id, email, fullName, subscriptions;
every subscription object carries exactly active, expiresAt,
plan\x7bid, name\x7d — matching the parsed request with no extra and no
missing keys. -/
theorem memberData_fields_roundTrip (m : MemberProfile) :
    memberKeys (memberDataResponseBody m) =
      (parseQuery memberQuery).map selectionName ∧
    memberKeys (memberProfileToJson m) =
      (selectionsUnder (parseQuery memberQuery) "currentMember").map selectionName ∧
    (selectionsUnder (selectionsUnder (parseQuery memberQuery) "currentMember")
        "subscriptions").map selectionName = ["active", "expiresAt", "plan"] ∧
    (selectionsUnder
        (selectionsUnder (selectionsUnder (parseQuery memberQuery) "currentMember")
          "subscriptions") "plan").map selectionName = ["id", "name"] ∧
    (m.subscriptions.map subscriptionToJson).all subscriptionShapeOk = true := by
  rw [parse_memberQuery_fields]
  refine ⟨rfl, rfl, rfl, rfl, ?_⟩
  rw [List.all_eq_true]
  intro v hv
  rw [List.mem_map] at hv
  obtain ⟨s, -, rfl⟩ := hv
  rfl

/-- Claim C10: `serializeUser` passes the full user object to the callback
unchanged (the computed subset `myUser` — which is empty anyway, since the
raw response has no top-level id/email/fullName — is discarded), and
`deserializeUser` returns the stored object unchanged, so the
deserialize-after-serialize round trip is the identity and `req.user` on the
protected route is the complete raw profile response. -/
theorem serializeUser_roundTrip_identity (user : JsonVal) :
    serializeUser user = (none, user) ∧
    deserializeUser (sessionStoredUser user) = (none, user) ∧
    reqUser (sessionStoredUser user) = user ∧
    sessionStoredUser exampleMemberData = exampleMemberData ∧
    myUserOf exampleMemberData =
      [("id", none), ("email", none), ("fullName", none)] :=
  ⟨rfl, rfl, rfl, rfl, rfl⟩

end MemberfulOAuth
